import Mathlib

/-!
Verification of SyNeto/python_di_examples.

This file gives a shallow embedding of the repository's components:

* `Example01.APIClient` — the decoupled leaf client of
  `src/example_01/main_di.py`.
* `Example03.User`, `Example03.HTTPAPIClient`, `Example03.UserService` —
  the testable service example of `src/example_03/main.py`.
* `Example02` — a model of the dependency-resolution container declared
  in `src/example_02/main.py`.  The container's provider semantics
  (Singleton / Factory / override / Configuration) live in the external
  `dependency_injector` package, not in this repository, so those
  operations are modelled from the specification (section 4.4) and are
  marked `Modelled from the spec:` in their doc comments.

Python dictionaries are modelled as association lists of string keys and
`PyVal` values; Python exceptions (`KeyError`, `ValueError`) are modelled
with `Except PyErr`.
-/

/-- A Python runtime value as it appears in the example records:
an int, a string, or a bool. -/
inductive PyVal where
  | int (n : Int)
  | str (s : String)
  | bool (b : Bool)
deriving DecidableEq, Repr

/-- A Python dict with string keys, as an association list.
The examples only ever build dicts with distinct keys; lookup returns
the first binding. -/
abbrev Dict := List (String × PyVal)

/-- A Python exception as raised by the embedded code:
`KeyError(key)` from a dict subscript, `ValueError(msg)` from `int()`. -/
inductive PyErr where
  | keyError (key : String)
  | valueError (msg : String)
deriving DecidableEq, Repr

/-- First-match association-list lookup (Python `d[k]` / `d.get(k)` on
dicts with distinct keys). -/
def assocGet? {α : Type} (l : List (String × α)) (k : String) : Option α :=
  match l with
  | [] => none
  | (k', v) :: rest => if k' = k then some v else assocGet? rest k

/-- Python dict subscript `d[k]`: the value, or a `KeyError`. -/
def dictItem (d : Dict) (k : String) : Except PyErr PyVal :=
  match assocGet? d k with
  | some v => Except.ok v
  | none => Except.error (PyErr.keyError k)

/-- Python `d.get(k, default)`. -/
def dictGetD (d : Dict) (k : String) (default : PyVal) : PyVal :=
  (assocGet? d k).getD default

/-- Python `str.startswith(p)`, via character lists. -/
def pyStartsWith (s p : String) : Bool :=
  p.data.isPrefixOf s.data

/-- Python `s.split('/')[-1]`: the characters after the last `'/'`
(the whole string when no `'/'` occurs, matching `split` returning
the singleton list). -/
def lastSegment (s : String) : String :=
  String.mk ((s.data.reverse.takeWhile (fun c => c ≠ '/')).reverse)

/-- The codepoints CPython's `int()` strips around a base-10 literal
(the space set of `_PyUnicode_TransformDecimalAndSpaceToASCII`): ASCII
tab through carriage return, space, next line `0x85`, no-break space
`0xA0`, and the Unicode line, paragraph and space separators.  Note
that the information separators `0x1C`-`0x1F`, which `str.strip()`
removes, are NOT stripped by `int()` (checked empirically against
CPython 3.11). -/
def pySpaceCodes : List Nat :=
  [ 0x09, 0x0A, 0x0B, 0x0C, 0x0D, 0x20,
    0x85, 0xA0, 0x1680,
    0x2000, 0x2001, 0x2002, 0x2003, 0x2004, 0x2005, 0x2006, 0x2007,
    0x2008, 0x2009, 0x200A, 0x2028, 0x2029, 0x202F, 0x205F, 0x3000 ]

/-- Whether `int()` treats `c` as strippable whitespace. -/
def pyIsSpace (c : Char) : Bool :=
  pySpaceCodes.contains c.toNat

/-- The whitespace stripping Python's `int()` performs around a
literal. -/
def pyStrip (s : String) : String :=
  String.mk (((s.data.dropWhile pyIsSpace).reverse.dropWhile
    pyIsSpace).reverse)

/-- Base codepoints of the Unicode decimal-digit ranges (general
category `Nd`, Unicode 14.0 as used by CPython 3.11); each range is
ten consecutive codepoints carrying the digit values `0`-`9`, and
Python's `int()` accepts a digit from any of them.  The table was
verified empirically against CPython 3.11 by testing `int()` on every
codepoint; later Unicode versions add ranges (e.g. Kawi `0x11F50`,
Nag Mundari `0x1E4F0` in 15.0) absent here. -/
def ndDigitBases : List Nat :=
  [ 0x0030, 0x0660, 0x06F0, 0x07C0, 0x0966, 0x09E6, 0x0A66, 0x0AE6,
    0x0B66, 0x0BE6, 0x0C66, 0x0CE6, 0x0D66, 0x0DE6, 0x0E50, 0x0ED0,
    0x0F20, 0x1040, 0x1090, 0x17E0, 0x1810, 0x1946, 0x19D0, 0x1A80,
    0x1A90, 0x1B50, 0x1BB0, 0x1C40, 0x1C50, 0xA620, 0xA8D0, 0xA900,
    0xA9D0, 0xA9F0, 0xAA50, 0xABF0, 0xFF10,
    0x104A0, 0x10D30, 0x11066, 0x110F0, 0x11136, 0x111D0, 0x112F0,
    0x11450, 0x114D0, 0x11650, 0x116C0, 0x11730, 0x118E0, 0x11950,
    0x11C50, 0x11D50, 0x11DA0, 0x16A60, 0x16AC0, 0x16B50,
    0x1D7CE, 0x1D7D8, 0x1D7E2, 0x1D7EC, 0x1D7F6, 0x1E140, 0x1E2F0,
    0x1E950, 0x1FBF0 ]

/-- The decimal value of a Unicode decimal digit (category `Nd`), or
`none` when `c` is not a decimal digit. -/
def pyDigitVal? (c : Char) : Option Nat :=
  (ndDigitBases.find? (fun b => decide (b ≤ c.toNat ∧ c.toNat < b + 10))).map
    (fun b => c.toNat - b)

/-- The digit part of a Python `int()` literal after the optional
sign: Unicode decimal digits with single underscore separators allowed
only between two digits (PEP 515).  `afterDigit` records whether the
previous character was a digit (initially `false`, so an empty digit
part or a leading underscore is rejected); `acc` is the value read so
far. -/
def pyDigitsAux : List Char → Bool → Nat → Option Nat
  | [], afterDigit, acc => if afterDigit then some acc else none
  | '_' :: cs, afterDigit, acc =>
    if afterDigit then pyDigitsAux cs false acc else none
  | c :: cs, _, acc =>
    match pyDigitVal? c with
    | some d => pyDigitsAux cs true (acc * 10 + d)
    | none => none

/-- Python `int(s)` for base 10: strip Python whitespace, accept an
optional ASCII sign, then at least one Unicode decimal digit with
single underscores allowed between digits (PEP 515); `none` models the
`ValueError` raised otherwise. -/
def pyInt? (s : String) : Option Int :=
  match (pyStrip s).data with
  | '-' :: rest => (pyDigitsAux rest false 0).map (fun n => -(n : Int))
  | '+' :: rest => (pyDigitsAux rest false 0).map (fun n => (n : Int))
  | cs => (pyDigitsAux cs false 0).map (fun n => (n : Int))

/-- Python `int(s)` as a fallible operation raising `ValueError`.
The message is modelled without the repr quotes Python places around
the offending literal. -/
def pyIntParse (s : String) : Except PyErr Int :=
  match pyInt? s with
  | some n => Except.ok n
  | none =>
    Except.error (PyErr.valueError
      ("invalid literal for int() with base 10: " ++ s))

namespace Example01

/-- The `APIClient` of `src/example_01/main_di.py`: holds the two injected
configuration values, nothing else. -/
structure APIClient where
  api_key : String
  timeout : Int
deriving DecidableEq, Repr

/-- Models `APIClient.__init__` (lines 72-80): stores both arguments verbatim,
with no validation and no conversion. -/
def APIClient.init (api_key : String) (timeout : Int) : APIClient :=
  { api_key := api_key, timeout := timeout }

end Example01

namespace Example03

/-- The `User` dataclass of `src/example_03/main.py` (lines 45-67).
Field values are Python runtime values; the dataclass itself performs
no conversion.  `active` defaults to `True`. -/
structure User where
  id : PyVal
  name : PyVal
  email : PyVal
  active : PyVal := PyVal.bool true
deriving DecidableEq, Repr

/-- The `HTTPAPIClient` of `src/example_03/main.py`: holds `api_key` and
`timeout`. -/
structure HTTPAPIClient where
  api_key : String
  timeout : Int
deriving DecidableEq, Repr

/-- Models `HTTPAPIClient.__init__` (lines 90-98): stores both arguments
verbatim. -/
def HTTPAPIClient.init (api_key : String) (timeout : Int) : HTTPAPIClient :=
  { api_key := api_key, timeout := timeout }

/-- The simulated user record `HTTPAPIClient.get` builds for
`/users/<id>` (lines 117-122). -/
def simulatedUserRecord (user_id : Int) : Dict :=
  [ ("id", PyVal.int user_id),
    ("name", PyVal.str ("User " ++ toString user_id)),
    ("email", PyVal.str ("user" ++ toString user_id ++ "@example.com")),
    ("active", PyVal.bool true) ]

/-- Models `HTTPAPIClient.get` (lines 100-123): if the endpoint starts with
`/users/`, parse the last `/`-segment with `int` (which can raise
`ValueError`) and return the simulated record; otherwise return the
empty dict.  `self` is unused by the source method. -/
def HTTPAPIClient.get (_self : HTTPAPIClient) (endpoint : String) :
    Except PyErr Dict :=
  if pyStartsWith endpoint "/users/" then
    match pyIntParse (lastSegment endpoint) with
    | Except.error e => Except.error e
    | Except.ok user_id => Except.ok (simulatedUserRecord user_id)
  else
    Except.ok []

/-- The `UserService` of `src/example_03/main.py` (lines 126-215), holding
the injected client capability.  The service consumes exactly one
capability of the client — its `get` method — so the stored dependency
is that method, in an arbitrary monad `m` so that pure mocks (`Id`)
and instrumented clients (`StateM`) can both be injected. -/
structure UserService (m : Type → Type) where
  api_client_get : String → m Dict

/-- The body of `UserService.get_user` after the client call
(lines 188-196): `if not response: return None`, then build the `User`
from subscripts `response['id']`, `response['name']`,
`response['email']` (each can raise `KeyError`, evaluated in that
order) and `response.get('active', True)`. -/
def userFromResponse (response : Dict) : Except PyErr (Option User) :=
  if response = [] then
    Except.ok none
  else
    match dictItem response "id" with
    | Except.error e => Except.error e
    | Except.ok i =>
      match dictItem response "name" with
      | Except.error e => Except.error e
      | Except.ok nm =>
        match dictItem response "email" with
        | Except.error e => Except.error e
        | Except.ok em =>
          Except.ok (some
            { id := i, name := nm, email := em,
              active := dictGetD response "active" (PyVal.bool true) })

/-- Models `UserService.get_user` (lines 168-196): one call
`self.api_client.get(f'/users/{user_id}')`, then `userFromResponse`
on the returned record. -/
def UserService.get_user {m : Type → Type} [Monad m] (s : UserService m)
    (user_id : Int) : m (Except PyErr (Option User)) := do
  let response ← s.api_client_get ("/users/" ++ toString user_id)
  pure (userFromResponse response)

/-- Models `UserService.is_user_active` (lines 198-215):
`user is not None and user.active` — `False` when the lookup returned
`None`, otherwise the user's `active` value; exceptions propagate. -/
def UserService.is_user_active {m : Type → Type} [Monad m]
    (s : UserService m) (user_id : Int) : m (Except PyErr PyVal) := do
  let r ← s.get_user user_id
  pure (match r with
    | Except.error e => Except.error e
    | Except.ok none => Except.ok (PyVal.bool false)
    | Except.ok (some u) => Except.ok u.active)

/-- A client capability that records every endpoint passed to `get`
while answering from a pure response table `f`, used to observe the
call discipline of `UserService.get_user`. -/
def loggingClient (f : String → Dict) : UserService (StateM (List String)) :=
  { api_client_get := fun endpoint => do
      modify (fun log => log ++ [endpoint])
      pure (f endpoint) }

end Example03

namespace Example02

/-- An object in the example_02 object graph.  `objId` models Python
object identity (a fresh allocation number), so equality of `Obj`
values is Python `is`-identity.  `apiClient` carries the stored
constructor arguments of `APIClient.__init__` (lines 87-99),
`serviceObj` the stored `api_client` of `Service.__init__`
(lines 119-125); `external` is an externally built replacement object
(such as the `mock.Mock()` of line 270). -/
inductive Obj where
  | apiClient (objId : Nat) (api_key : String) (timeout : Int)
  | serviceObj (objId : Nat) (api_client : Obj)
  | external (tag : Nat)
deriving DecidableEq, Repr

/-- Modelled from the spec: the state of the declarative `Container`
of `src/example_02/main.py` (lines 128-197), whose provider semantics
live in the external `dependency_injector` package.  It holds the two
configuration leaves, the `api_client` Singleton cache, one override
stack per provider key (spec section 3, OverrideScope), a fresh-object
counter for Python identity, and constructor-invocation counters for
the two registered constructors. -/
structure ContainerState where
  config_api_key : Option String
  config_timeout : Option Int
  api_client_cache : Option Obj
  api_client_overrides : List Obj
  service_overrides : List Obj
  next_id : Nat
  api_client_ctor_calls : Nat
  service_ctor_calls : Nat
deriving DecidableEq, Repr

/-- Resolution failure: a configuration leaf was never populated, so
the constructor's argument is unavailable (spec sections 4.4 and 7). -/
inductive ResolveErr where
  | missingConfig (key : String)
deriving DecidableEq, Repr

/-- The `ConfigurationError` of spec section 7: a required external value
is missing, or a value cannot be converted to its declared type. -/
inductive ConfigurationError where
  | missingKey (key : String)
  | badValue (key : String) (value : String)
deriving DecidableEq, Repr

/-- The container state produced by a successful configuration:
populated configuration leaves, empty caches and override stacks, no
constructor invoked yet. -/
def initialState (api_key : String) (timeout : Int) : ContainerState :=
  { config_api_key := some api_key,
    config_timeout := some timeout,
    api_client_cache := none,
    api_client_overrides := [],
    service_overrides := [],
    next_id := 0,
    api_client_ctor_calls := 0,
    service_ctor_calls := 0 }

/-- Modelled from the spec: `configure` for the declarations of
lines 246-247 — `API_KEY` is required with no default, so its absence
is a fatal `ConfigurationError`; `TIMEOUT` is converted with `int`
(a conversion failure is a configuration-time error) and defaults
to `5` when absent (spec sections 4.4 and 6). -/
def configureFromEnv (env : List (String × String)) :
    Except ConfigurationError ContainerState :=
  match assocGet? env "API_KEY" with
  | none => Except.error (ConfigurationError.missingKey "API_KEY")
  | some k =>
    match assocGet? env "TIMEOUT" with
    | none => Except.ok (initialState k 5)
    | some tv =>
      match pyInt? tv with
      | none => Except.error (ConfigurationError.badValue "TIMEOUT" tv)
      | some t => Except.ok (initialState k t)

/-- Modelled from the spec: `resolve` for the `api_client` Singleton
provider (lines 179-183; spec section 4.4).  An active override
shadows everything; otherwise a cached instance is returned unchanged;
otherwise the constructor runs once on the configuration leaves, the
fresh instance is cached, and resolution fails if a leaf was never
populated. -/
def resolveApiClient (s : ContainerState) :
    ContainerState × Except ResolveErr Obj :=
  match s.api_client_overrides with
  | x :: _ => (s, Except.ok x)
  | [] =>
    match s.api_client_cache with
    | some c => (s, Except.ok c)
    | none =>
      match s.config_api_key, s.config_timeout with
      | some k, some t =>
        let c := Obj.apiClient s.next_id k t
        ({ s with
            api_client_cache := some c,
            next_id := s.next_id + 1,
            api_client_ctor_calls := s.api_client_ctor_calls + 1 },
          Except.ok c)
      | none, _ => (s, Except.error (ResolveErr.missingConfig "api_key"))
      | some _, none => (s, Except.error (ResolveErr.missingConfig "timeout"))

/-- Modelled from the spec: `resolve` for the `service` Factory
provider (lines 194-197; spec section 4.4).  An active override
shadows; otherwise the `api_client` argument is resolved through the
container (so it sees the singleton cache and any `api_client`
override) and a new `Service` instance is constructed every time,
never cached. -/
def resolveService (s : ContainerState) :
    ContainerState × Except ResolveErr Obj :=
  match s.service_overrides with
  | x :: _ => (s, Except.ok x)
  | [] =>
    match resolveApiClient s with
    | (s1, Except.ok c) =>
      ({ s1 with
          next_id := s1.next_id + 1,
          service_ctor_calls := s1.service_ctor_calls + 1 },
        Except.ok (Obj.serviceObj s1.next_id c))
    | (s1, Except.error e) => (s1, Except.error e)

/-- Modelled from the spec: `container.api_client.override(x)`
(line 270) pushes a replacement on the key's override stack. -/
def overrideApiClient (s : ContainerState) (x : Obj) : ContainerState :=
  { s with api_client_overrides := x :: s.api_client_overrides }

/-- Modelled from the spec: releasing the `api_client` override handle
(leaving the `with` block of lines 270-271) pops the stack, LIFO. -/
def releaseApiClientOverride (s : ContainerState) : ContainerState :=
  { s with api_client_overrides := s.api_client_overrides.tail }

/-- Modelled from the spec: `container.service.override(x)` — any key
may be overridden (spec section 4.4). -/
def overrideService (s : ContainerState) (x : Obj) : ContainerState :=
  { s with service_overrides := x :: s.service_overrides }

/-- Modelled from the spec: releasing the `service` override, LIFO. -/
def releaseServiceOverride (s : ContainerState) : ContainerState :=
  { s with service_overrides := s.service_overrides.tail }

/-- One container interaction, for stating lifetime invariants over
arbitrary interaction sequences. -/
inductive ContainerOp where
  | resolveApiClientOp
  | resolveServiceOp
  | overrideApiClientOp (x : Obj)
  | releaseApiClientOverrideOp
  | overrideServiceOp (x : Obj)
  | releaseServiceOverrideOp
deriving DecidableEq, Repr

/-- The state transition of one container interaction (resolution
results are discarded; only the state evolution matters here). -/
def stepOp (s : ContainerState) (op : ContainerOp) : ContainerState :=
  match op with
  | ContainerOp.resolveApiClientOp => (resolveApiClient s).1
  | ContainerOp.resolveServiceOp => (resolveService s).1
  | ContainerOp.overrideApiClientOp x => overrideApiClient s x
  | ContainerOp.releaseApiClientOverrideOp => releaseApiClientOverride s
  | ContainerOp.overrideServiceOp x => overrideService s x
  | ContainerOp.releaseServiceOverrideOp => releaseServiceOverride s

/-- Run a sequence of container interactions. -/
def runOps (s : ContainerState) (ops : List ContainerOp) : ContainerState :=
  ops.foldl stepOp s

end Example02

/-- Decidable equality for `Except`, so that concrete runs of the
embedded operations can be checked by `decide`. -/
instance {e a : Type} [DecidableEq e] [DecidableEq a] :
    DecidableEq (Except e a) :=
  fun x y =>
    match x, y with
    | Except.ok v, Except.ok w =>
      if h : v = w then isTrue (by rw [h])
      else isFalse (by intro hc; cases hc; exact h rfl)
    | Except.ok _, Except.error _ => isFalse (by intro hc; cases hc)
    | Except.error _, Except.ok _ => isFalse (by intro hc; cases hc)
    | Except.error v, Except.error w =>
      if h : v = w then isTrue (by rw [h])
      else isFalse (by intro hc; cases hc; exact h rfl)

/-- C7: for every `api_key` and every `timeout` value, constructing the
leaf client (`APIClient` of example_01, `HTTPAPIClient` of example_03)
succeeds with no validation or conversion, and the stored `api_key` and
`timeout` fields are exactly the argument values. -/
theorem c7_leaf_client_stores_verbatim (api_key : String) (timeout : Int) :
    (Example01.APIClient.init api_key timeout).api_key = api_key ∧
    (Example01.APIClient.init api_key timeout).timeout = timeout ∧
    (Example03.HTTPAPIClient.init api_key timeout).api_key = api_key ∧
    (Example03.HTTPAPIClient.init api_key timeout).timeout = timeout :=
  ⟨rfl, rfl, rfl, rfl⟩

/-- C4: for every user id, if the injected client's `get` returns the
empty record for the user endpoint, then `UserService.get_user` returns
`None` (no exception) and `UserService.is_user_active` for the same id
returns `False`. -/
theorem c4_empty_result_handling (get : String → Dict) (user_id : Int)
    (h : get ("/users/" ++ toString user_id) = []) :
    Example03.UserService.get_user (m := Id)
      { api_client_get := get } user_id = Except.ok none ∧
    Example03.UserService.is_user_active (m := Id)
      { api_client_get := get } user_id = Except.ok (PyVal.bool false) := by
  constructor
  · show Example03.userFromResponse (get ("/users/" ++ toString user_id))
      = Except.ok none
    rw [h]; rfl
  · show (match Example03.userFromResponse
        (get ("/users/" ++ toString user_id)) with
      | Except.error e => Except.error e
      | Except.ok none => Except.ok (PyVal.bool false)
      | Except.ok (some u) => Except.ok u.active)
      = Except.ok (PyVal.bool false)
    rw [h]; rfl

/-- C4 witness: a mock always answering with the empty dict makes
`get_user 999` return `None` and `is_user_active 999` return `False`. -/
theorem c4_empty_result_handling_witness :
    Example03.UserService.get_user (m := Id)
      { api_client_get := fun _ => ([] : Dict) } 999 = Except.ok none ∧
    Example03.UserService.is_user_active (m := Id)
      { api_client_get := fun _ => ([] : Dict) } 999
      = Except.ok (PyVal.bool false) :=
  c4_empty_result_handling (fun _ => []) 999 rfl

/-- C5: for every backing record that is non-empty, contains `id`,
`name` and `email`, and lacks the `active` field, `get_user` returns a
`User` whose `active` field is `True`. -/
theorem c5_missing_active_defaults_true (get : String → Dict)
    (user_id : Int) (i nm em : PyVal)
    (hi : assocGet? (get ("/users/" ++ toString user_id)) "id" = some i)
    (hn : assocGet? (get ("/users/" ++ toString user_id)) "name" = some nm)
    (he : assocGet? (get ("/users/" ++ toString user_id)) "email" = some em)
    (ha : assocGet? (get ("/users/" ++ toString user_id)) "active" = none) :
    Example03.UserService.get_user (m := Id)
      { api_client_get := get } user_id
      = Except.ok (some
          { id := i, name := nm, email := em, active := PyVal.bool true }) := by
  show Example03.userFromResponse (get ("/users/" ++ toString user_id)) = _
  have hne : get ("/users/" ++ toString user_id) ≠ [] := by
    intro hnil
    rw [hnil] at hi
    simp [assocGet?] at hi
  unfold Example03.userFromResponse
  rw [if_neg hne]
  simp [dictItem, dictGetD, hi, hn, he, ha]

/-- C5 witness: the Charlie record of the spec, lacking `active`,
yields a `User` with `active = True`. -/
theorem c5_missing_active_defaults_true_witness :
    Example03.UserService.get_user (m := Id)
      { api_client_get := fun _ =>
          [ ("id", PyVal.int 3), ("name", PyVal.str "Charlie"),
            ("email", PyVal.str "charlie@x.com") ] } 3
      = Except.ok (some
          { id := PyVal.int 3, name := PyVal.str "Charlie",
            email := PyVal.str "charlie@x.com",
            active := PyVal.bool true }) :=
  c5_missing_active_defaults_true
    (fun _ =>
      [ ("id", PyVal.int 3), ("name", PyVal.str "Charlie"),
        ("email", PyVal.str "charlie@x.com") ])
    3 (PyVal.int 3) (PyVal.str "Charlie") (PyVal.str "charlie@x.com")
    (by decide) (by decide) (by decide) (by decide)

/-- C10: for every response table `f` and every integer `user_id`,
running `get_user` with an instrumented client shows that the injected
client's `get` is invoked exactly once, with argument exactly
`'/users/' + str(user_id)`, and that the result is built solely (via
`userFromResponse`) from the record that single call returned. -/
theorem c10_exact_call_discipline (f : String → Dict) (user_id : Int)
    (log : List String) :
    (Example03.UserService.get_user
        (Example03.loggingClient f) user_id).run log
      = (Example03.userFromResponse (f ("/users/" ++ toString user_id)),
         log ++ ["/users/" ++ toString user_id]) :=
  rfl

/-- C6 counterexample: the claim says a missing requested field gets a
documented default and a `User` is still returned, for ANY of `id`,
`name`, `email`, `active`.  But for the non-empty record
`{'name': 'x', 'email': 'y', 'active': True}` lacking only `id`,
`get_user` raises `KeyError('id')` (from `response['id']`, line 192)
and returns no `User` at all. -/
theorem c6_counterexample :
    Example03.UserService.get_user (m := Id)
      { api_client_get := fun _ =>
          [ ("name", PyVal.str "x"), ("email", PyVal.str "y"),
            ("active", PyVal.bool true) ] } 3
      = Except.error (PyErr.keyError "id") :=
  rfl

/-- C6 amended: only the `active` field has a documented default
(`True`); for a non-empty backing record, a missing `id`, `name` or
`email` makes `get_user` raise `KeyError` on the first missing field
(checked in the order `id`, `name`, `email`) instead of returning a
`User`; when all three are present a `User` is returned, with `active`
defaulted to `True` only when absent. -/
theorem c6_only_active_has_default (get : String → Dict) (user_id : Int) :
    (get ("/users/" ++ toString user_id) ≠ [] →
      assocGet? (get ("/users/" ++ toString user_id)) "id" = none →
      Example03.UserService.get_user (m := Id)
        { api_client_get := get } user_id
        = Except.error (PyErr.keyError "id")) ∧
    (∀ i, assocGet? (get ("/users/" ++ toString user_id)) "id" = some i →
      assocGet? (get ("/users/" ++ toString user_id)) "name" = none →
      Example03.UserService.get_user (m := Id)
        { api_client_get := get } user_id
        = Except.error (PyErr.keyError "name")) ∧
    (∀ i nm, assocGet? (get ("/users/" ++ toString user_id)) "id" = some i →
      assocGet? (get ("/users/" ++ toString user_id)) "name" = some nm →
      assocGet? (get ("/users/" ++ toString user_id)) "email" = none →
      Example03.UserService.get_user (m := Id)
        { api_client_get := get } user_id
        = Except.error (PyErr.keyError "email")) ∧
    (∀ i nm em,
      assocGet? (get ("/users/" ++ toString user_id)) "id" = some i →
      assocGet? (get ("/users/" ++ toString user_id)) "name" = some nm →
      assocGet? (get ("/users/" ++ toString user_id)) "email" = some em →
      Example03.UserService.get_user (m := Id)
        { api_client_get := get } user_id
        = Except.ok (some
            { id := i, name := nm, email := em,
              active := dictGetD (get ("/users/" ++ toString user_id))
                "active" (PyVal.bool true) })) := by
  have hrun : Example03.UserService.get_user (m := Id)
      { api_client_get := get } user_id
      = Example03.userFromResponse (get ("/users/" ++ toString user_id)) :=
    rfl
  have hsome : ∀ (k : String) (v : _),
      assocGet? (get ("/users/" ++ toString user_id)) k = some v →
      get ("/users/" ++ toString user_id) ≠ [] := by
    intro k v hk hnil
    rw [hnil] at hk
    simp [assocGet?] at hk
  refine ⟨?_, ?_, ?_, ?_⟩
  · intro hne hi
    rw [hrun]
    unfold Example03.userFromResponse
    rw [if_neg hne]
    simp [dictItem, hi]
  · intro i hi hn
    rw [hrun]
    unfold Example03.userFromResponse
    rw [if_neg (hsome "id" i hi)]
    simp [dictItem, hi, hn]
  · intro i nm hi hn he
    rw [hrun]
    unfold Example03.userFromResponse
    rw [if_neg (hsome "id" i hi)]
    simp [dictItem, hi, hn, he]
  · intro i nm em hi hn he
    rw [hrun]
    unfold Example03.userFromResponse
    rw [if_neg (hsome "id" i hi)]
    simp [dictItem, hi, hn, he]

/-- C6 witness: a record lacking only `id` raises `KeyError('id')`,
and the full Alice record yields her `User`. -/
theorem c6_only_active_has_default_witness :
    Example03.UserService.get_user (m := Id)
      { api_client_get := fun _ => [("name", PyVal.str "x")] } 1
      = Except.error (PyErr.keyError "id") ∧
    Example03.UserService.get_user (m := Id)
      { api_client_get := fun _ =>
          [ ("id", PyVal.int 1), ("name", PyVal.str "Alice"),
            ("email", PyVal.str "alice@example.com"),
            ("active", PyVal.bool true) ] } 1
      = Except.ok (some
          { id := PyVal.int 1, name := PyVal.str "Alice",
            email := PyVal.str "alice@example.com",
            active := PyVal.bool true }) :=
  ⟨(c6_only_active_has_default (fun _ => [("name", PyVal.str "x")]) 1).1
      (by decide) (by decide),
   (c6_only_active_has_default (fun _ =>
        [ ("id", PyVal.int 1), ("name", PyVal.str "Alice"),
          ("email", PyVal.str "alice@example.com"),
          ("active", PyVal.bool true) ]) 1).2.2.2
      (PyVal.int 1) (PyVal.str "Alice") (PyVal.str "alice@example.com")
      (by decide) (by decide) (by decide)⟩

/-- C9 counterexample: the claim says the transport client's `get`
never raises for any endpoint string.  But `HTTPAPIClient.get` on
`'/users/x'` runs `int('x')` (line 116) and raises `ValueError`
instead of returning a record or an empty result. -/
theorem c9_counterexample :
    Example03.HTTPAPIClient.get (Example03.HTTPAPIClient.init "k" 10)
      "/users/x"
      = Except.error (PyErr.valueError
          "invalid literal for int() with base 10: x") := by
  decide

/-- C9 amended: for every endpoint not starting with `/users/`, `get`
returns the empty record and never raises; for an endpoint starting
with `/users/` whose last `/`-segment parses as an integer, `get`
returns the simulated user record; but for an endpoint starting with
`/users/` whose last segment is not an integer literal, `get` raises
`ValueError` rather than returning an empty result. -/
theorem c9_get_total_except_bad_user_id (c : Example03.HTTPAPIClient)
    (endpoint : String) :
    (pyStartsWith endpoint "/users/" = false →
      c.get endpoint = Except.ok []) ∧
    (∀ n, pyStartsWith endpoint "/users/" = true →
      pyInt? (lastSegment endpoint) = some n →
      c.get endpoint = Except.ok (Example03.simulatedUserRecord n)) ∧
    (pyStartsWith endpoint "/users/" = true →
      pyInt? (lastSegment endpoint) = none →
      c.get endpoint = Except.error (PyErr.valueError
        ("invalid literal for int() with base 10: "
          ++ lastSegment endpoint))) := by
  refine ⟨?_, ?_, ?_⟩
  · intro hs
    simp [Example03.HTTPAPIClient.get, hs]
  · intro n hs hp
    simp [Example03.HTTPAPIClient.get, hs, pyIntParse, hp]
  · intro hs hp
    simp [Example03.HTTPAPIClient.get, hs, pyIntParse, hp]

/-- C9 witness: `/status` yields the empty record; `/users/7` the
simulated record for user 7; and `/users/1_0`, whose last segment is a
PEP 515 underscore literal accepted by `int()`, the record for
user 10. -/
theorem c9_get_total_except_bad_user_id_witness :
    Example03.HTTPAPIClient.get (Example03.HTTPAPIClient.init "k" 5)
      "/status" = Except.ok [] ∧
    Example03.HTTPAPIClient.get (Example03.HTTPAPIClient.init "k" 5)
      "/users/7" = Except.ok (Example03.simulatedUserRecord 7) ∧
    Example03.HTTPAPIClient.get (Example03.HTTPAPIClient.init "k" 5)
      "/users/1_0" = Except.ok (Example03.simulatedUserRecord 10) :=
  ⟨(c9_get_total_except_bad_user_id (Example03.HTTPAPIClient.init "k" 5)
      "/status").1 (by decide),
   (c9_get_total_except_bad_user_id (Example03.HTTPAPIClient.init "k" 5)
      "/users/7").2.1 7 (by decide) (by decide),
   (c9_get_total_except_bad_user_id (Example03.HTTPAPIClient.init "k" 5)
      "/users/1_0").2.1 10 (by decide) (by decide)⟩

/-- C1: override shadowing round-trip.  While an override `x` is on
top of the `api_client` stack, resolving `api_client` yields exactly
`x` (and mutates nothing), and resolving `service` (the consumer that
depends on `api_client`) yields a `Service` whose injected client is
`x`.  Releasing the override handle restores the container state
exactly — in particular, a previously cached singleton instance is
returned again afterwards. -/
theorem c1_override_shadowing (s t : Example02.ContainerState)
    (x : Example02.Obj) (rest : List Example02.Obj) :
    (Example02.overrideApiClient s x).api_client_overrides.head? = some x ∧
    (t.api_client_overrides = x :: rest →
      Example02.resolveApiClient t = (t, Except.ok x)) ∧
    (t.api_client_overrides = x :: rest → t.service_overrides = [] →
      (Example02.resolveService t).2
        = Except.ok (Example02.Obj.serviceObj t.next_id x)) ∧
    Example02.releaseApiClientOverride (Example02.overrideApiClient s x)
      = s ∧
    (∀ c, s.api_client_overrides = [] → s.api_client_cache = some c →
      (Example02.resolveApiClient
        (Example02.releaseApiClientOverride
          (Example02.overrideApiClient s x))).2 = Except.ok c) := by
  refine ⟨rfl, ?_, ?_, ?_, ?_⟩
  · intro hov
    simp [Example02.resolveApiClient, hov]
  · intro hov hsv
    simp [Example02.resolveService, Example02.resolveApiClient, hov, hsv]
  · simp [Example02.releaseApiClientOverride, Example02.overrideApiClient]
  · intro c hov hc
    have hrel : Example02.releaseApiClientOverride
        (Example02.overrideApiClient s x) = s := by
      simp [Example02.releaseApiClientOverride, Example02.overrideApiClient]
    rw [hrel]
    simp [Example02.resolveApiClient, hov, hc]

/-- C1 witness: on a container whose singleton is already cached,
overriding with an external mock shadows both direct and transitive
resolution, and releasing restores the cached instance. -/
theorem c1_override_shadowing_witness :
    (Example02.overrideApiClient
        { Example02.initialState "k" 5 with
            api_client_cache := some (Example02.Obj.apiClient 0 "k" 5),
            next_id := 1, api_client_ctor_calls := 1 }
        (Example02.Obj.external 0)).api_client_overrides.head?
      = some (Example02.Obj.external 0) ∧
    (Example02.resolveApiClient
        (Example02.overrideApiClient
          { Example02.initialState "k" 5 with
              api_client_cache := some (Example02.Obj.apiClient 0 "k" 5),
              next_id := 1, api_client_ctor_calls := 1 }
          (Example02.Obj.external 0))).2
      = Except.ok (Example02.Obj.external 0) ∧
    (Example02.resolveService
        (Example02.overrideApiClient
          { Example02.initialState "k" 5 with
              api_client_cache := some (Example02.Obj.apiClient 0 "k" 5),
              next_id := 1, api_client_ctor_calls := 1 }
          (Example02.Obj.external 0))).2
      = Except.ok (Example02.Obj.serviceObj 1 (Example02.Obj.external 0)) ∧
    (Example02.resolveApiClient
        (Example02.releaseApiClientOverride
          (Example02.overrideApiClient
            { Example02.initialState "k" 5 with
                api_client_cache := some (Example02.Obj.apiClient 0 "k" 5),
                next_id := 1, api_client_ctor_calls := 1 }
            (Example02.Obj.external 0)))).2
      = Except.ok (Example02.Obj.apiClient 0 "k" 5) := by
  have h := c1_override_shadowing
    { Example02.initialState "k" 5 with
        api_client_cache := some (Example02.Obj.apiClient 0 "k" 5),
        next_id := 1, api_client_ctor_calls := 1 }
    (Example02.overrideApiClient
      { Example02.initialState "k" 5 with
          api_client_cache := some (Example02.Obj.apiClient 0 "k" 5),
          next_id := 1, api_client_ctor_calls := 1 }
      (Example02.Obj.external 0))
    (Example02.Obj.external 0) []
  exact ⟨h.1,
    congrArg Prod.snd (h.2.1 rfl),
    h.2.2.1 rfl rfl,
    h.2.2.2.2 (Example02.Obj.apiClient 0 "k" 5) rfl rfl⟩

/-- C8: the configuration contract of lines 246-247 — `API_KEY` is
required, so its absence fails with a `ConfigurationError` naming the
key before any container state (hence any resolution) exists;
`TIMEOUT` defaults to `5` when absent; a non-numeric `TIMEOUT` string
fails with a conversion error at configuration time; and a successful
configuration yields a state in which nothing has been resolved or
constructed yet. -/
theorem c8_configuration_contract (env : List (String × String)) :
    (assocGet? env "API_KEY" = none →
      Example02.configureFromEnv env
        = Except.error (Example02.ConfigurationError.missingKey "API_KEY")) ∧
    (∀ k, assocGet? env "API_KEY" = some k →
      assocGet? env "TIMEOUT" = none →
      Example02.configureFromEnv env
        = Except.ok (Example02.initialState k 5)) ∧
    (∀ k tv, assocGet? env "API_KEY" = some k →
      assocGet? env "TIMEOUT" = some tv → pyInt? tv = none →
      Example02.configureFromEnv env
        = Except.error
            (Example02.ConfigurationError.badValue "TIMEOUT" tv)) ∧
    (∀ s0, Example02.configureFromEnv env = Except.ok s0 →
      s0.api_client_cache = none ∧ s0.api_client_ctor_calls = 0 ∧
      s0.service_ctor_calls = 0) := by
  refine ⟨?_, ?_, ?_, ?_⟩
  · intro h
    simp [Example02.configureFromEnv, h]
  · intro k hk ht
    simp [Example02.configureFromEnv, hk, ht]
  · intro k tv hk ht hp
    simp [Example02.configureFromEnv, hk, ht, hp]
  · intro s0 h0
    have : ∃ k t, s0 = Example02.initialState k t := by
      cases hk : assocGet? env "API_KEY" with
      | none => simp [Example02.configureFromEnv, hk] at h0
      | some k =>
        cases ht : assocGet? env "TIMEOUT" with
        | none =>
          simp [Example02.configureFromEnv, hk, ht] at h0
          exact ⟨k, 5, h0.symm⟩
        | some tv =>
          cases hp : pyInt? tv with
          | none => simp [Example02.configureFromEnv, hk, ht, hp] at h0
          | some t =>
            simp [Example02.configureFromEnv, hk, ht, hp] at h0
            exact ⟨k, t, h0.symm⟩
    obtain ⟨k, t, rfl⟩ := this
    exact ⟨rfl, rfl, rfl⟩

/-- C8 witness: concrete environments exercising the required key, the
default, and the conversion failure. -/
theorem c8_configuration_contract_witness :
    Example02.configureFromEnv [("TIMEOUT", "7")]
      = Except.error (Example02.ConfigurationError.missingKey "API_KEY") ∧
    Example02.configureFromEnv [("API_KEY", "k")]
      = Except.ok (Example02.initialState "k" 5) ∧
    Example02.configureFromEnv [("API_KEY", "k"), ("TIMEOUT", "abc")]
      = Except.error
          (Example02.ConfigurationError.badValue "TIMEOUT" "abc") ∧
    (Example02.initialState "k" 5).api_client_ctor_calls = 0 :=
  ⟨(c8_configuration_contract [("TIMEOUT", "7")]).1 (by decide),
   (c8_configuration_contract [("API_KEY", "k")]).2.1 "k"
      (by decide) (by decide),
   (c8_configuration_contract [("API_KEY", "k"), ("TIMEOUT", "abc")]).2.2.1
      "k" "abc" (by decide) (by decide) (by decide),
   ((c8_configuration_contract [("API_KEY", "k")]).2.2.2
      (Example02.initialState "k" 5)
      ((c8_configuration_contract [("API_KEY", "k")]).2.1 "k"
        (by decide) (by decide))).2.1⟩

/-- The singleton invariant backing C2: the `APIClient` constructor has
run at most once, and has not run at all while the cache is empty. -/
def Example02.apiCtorInv (s : Example02.ContainerState) : Prop :=
  s.api_client_ctor_calls ≤ 1 ∧
  (s.api_client_cache = none → s.api_client_ctor_calls = 0)

/-- Resolving the `api_client` singleton preserves the constructor
invariant: it constructs only when the cache is empty, and fills it. -/
theorem Example02.apiCtorInv_resolveApiClient
    (s : Example02.ContainerState) (h : Example02.apiCtorInv s) :
    Example02.apiCtorInv (Example02.resolveApiClient s).1 := by
  unfold Example02.resolveApiClient
  cases hov : s.api_client_overrides with
  | cons x rest => exact h
  | nil =>
    cases hc : s.api_client_cache with
    | some c => exact h
    | none =>
      cases hk : s.config_api_key with
      | none => exact h
      | some k =>
        cases ht : s.config_timeout with
        | none => exact h
        | some tm =>
          refine ⟨?_, ?_⟩
          · show s.api_client_ctor_calls + 1 ≤ 1
            rw [h.2 hc]
          · intro hcc
            exact Option.noConfusion hcc

/-- Every container interaction preserves the constructor invariant. -/
theorem Example02.apiCtorInv_stepOp (s : Example02.ContainerState)
    (op : Example02.ContainerOp) (h : Example02.apiCtorInv s) :
    Example02.apiCtorInv (Example02.stepOp s op) := by
  have hres := Example02.apiCtorInv_resolveApiClient s h
  cases op with
  | resolveApiClientOp => exact hres
  | resolveServiceOp =>
    show Example02.apiCtorInv (Example02.resolveService s).1
    unfold Example02.resolveService
    cases hsv : s.service_overrides with
    | cons x rest => exact h
    | nil =>
      rcases hra : Example02.resolveApiClient s with ⟨s1, r⟩
      rw [hra] at hres
      cases r with
      | ok c => exact hres
      | error e => exact hres
  | overrideApiClientOp x => exact h
  | releaseApiClientOverrideOp => exact h
  | overrideServiceOp x => exact h
  | releaseServiceOverrideOp => exact h

/-- The constructor invariant holds after any interaction sequence. -/
theorem Example02.apiCtorInv_runOps (s : Example02.ContainerState)
    (ops : List Example02.ContainerOp) (h : Example02.apiCtorInv s) :
    Example02.apiCtorInv (Example02.runOps s ops) := by
  induction ops generalizing s with
  | nil => exact h
  | cons op rest ih => exact ih _ (Example02.apiCtorInv_stepOp s op h)

/-- A successful configuration produces exactly an initial state. -/
theorem Example02.configureFromEnv_ok_shape (env : List (String × String))
    (s0 : Example02.ContainerState)
    (h0 : Example02.configureFromEnv env = Except.ok s0) :
    ∃ k t, s0 = Example02.initialState k t := by
  cases hk : assocGet? env "API_KEY" with
  | none => simp [Example02.configureFromEnv, hk] at h0
  | some k =>
    cases ht : assocGet? env "TIMEOUT" with
    | none =>
      simp [Example02.configureFromEnv, hk, ht] at h0
      exact ⟨k, 5, h0.symm⟩
    | some tv =>
      cases hp : pyInt? tv with
      | none => simp [Example02.configureFromEnv, hk, ht, hp] at h0
      | some t =>
        simp [Example02.configureFromEnv, hk, ht, hp] at h0
        exact ⟨k, t, h0.symm⟩

/-- C2: singleton identity for the `api_client` provider.  Without an
active override, two consecutive resolutions return the identical
instance (the same object, cache returned unchanged), and over any
sequence of container interactions starting from a freshly configured
container the `APIClient` constructor is invoked at most once. -/
theorem c2_singleton_identity_and_single_construction
    (t : Example02.ContainerState) (env : List (String × String))
    (s0 : Example02.ContainerState) (ops : List Example02.ContainerOp)
    (hov : t.api_client_overrides = [])
    (hcfg : Example02.configureFromEnv env = Except.ok s0) :
    (Example02.resolveApiClient t).2
      = (Example02.resolveApiClient (Example02.resolveApiClient t).1).2 ∧
    (Example02.runOps s0 ops).api_client_ctor_calls ≤ 1 := by
  constructor
  · cases hc : t.api_client_cache with
    | some c => simp [Example02.resolveApiClient, hov, hc]
    | none =>
      cases hk : t.config_api_key with
      | none => simp [Example02.resolveApiClient, hov, hc, hk]
      | some k =>
        cases ht : t.config_timeout with
        | none => simp [Example02.resolveApiClient, hov, hc, hk, ht]
        | some tm => simp [Example02.resolveApiClient, hov, hc, hk, ht]
  · obtain ⟨k, tm, rfl⟩ :=
      Example02.configureFromEnv_ok_shape env s0 hcfg
    exact (Example02.apiCtorInv_runOps _ ops
      ⟨Nat.zero_le 1, fun _ => rfl⟩).1

/-- C2 witness: on a container configured with key `k` and default
timeout, consecutive resolutions agree and three interactions invoke
the constructor at most once. -/
theorem c2_singleton_identity_and_single_construction_witness :
    (Example02.resolveApiClient (Example02.initialState "k" 5)).2
      = (Example02.resolveApiClient
          (Example02.resolveApiClient (Example02.initialState "k" 5)).1).2 ∧
    (Example02.runOps (Example02.initialState "k" 5)
        [ Example02.ContainerOp.resolveApiClientOp,
          Example02.ContainerOp.resolveServiceOp,
          Example02.ContainerOp.resolveApiClientOp ]).api_client_ctor_calls
      ≤ 1 :=
  c2_singleton_identity_and_single_construction
    (Example02.initialState "k" 5) [("API_KEY", "k")]
    (Example02.initialState "k" 5)
    [ Example02.ContainerOp.resolveApiClientOp,
      Example02.ContainerOp.resolveServiceOp,
      Example02.ContainerOp.resolveApiClientOp ]
    rfl (by decide)

/-- C3: transient distinctness for the `service` Factory provider.
Without an active `service` override, two consecutive successful
resolutions return two distinct instances — and in fact the two
instances carry the very same injected `api_client` argument (the
shared singleton, cached after the first resolution, or the active
override), so the constructor arguments are identical while the
instances differ. -/
theorem c3_transient_distinctness (s : Example02.ContainerState)
    (o1 o2 : Example02.Obj)
    (hsv : s.service_overrides = [])
    (h1 : (Example02.resolveService s).2 = Except.ok o1)
    (h2 : (Example02.resolveService
      (Example02.resolveService s).1).2 = Except.ok o2) :
    o1 ≠ o2 ∧
    ∃ n c, o1 = Example02.Obj.serviceObj n c ∧
      o2 = Example02.Obj.serviceObj (n + 1) c := by
  cases hov : s.api_client_overrides with
  | cons x rest =>
    simp [Example02.resolveService, Example02.resolveApiClient,
      hsv, hov] at h1 h2
    subst h1 h2
    refine ⟨?_, s.next_id, x, rfl, rfl⟩
    simp
  | nil =>
    cases hc : s.api_client_cache with
    | some c =>
      simp [Example02.resolveService, Example02.resolveApiClient,
        hsv, hov, hc] at h1 h2
      subst h1 h2
      refine ⟨?_, s.next_id, c, rfl, rfl⟩
      simp
    | none =>
      cases hk : s.config_api_key with
      | none =>
        simp [Example02.resolveService, Example02.resolveApiClient,
          hsv, hov, hc, hk] at h1
      | some k =>
        cases ht : s.config_timeout with
        | none =>
          simp [Example02.resolveService, Example02.resolveApiClient,
            hsv, hov, hc, hk, ht] at h1
        | some tm =>
          simp [Example02.resolveService, Example02.resolveApiClient,
            hsv, hov, hc, hk, ht] at h1 h2
          subst h1 h2
          refine ⟨?_, s.next_id + 1,
            Example02.Obj.apiClient s.next_id k tm, rfl, rfl⟩
          simp

/-- C3 witness: from a freshly configured container, the first two
service resolutions return `Service` instances 1 and 2, both holding
the same cached `APIClient` instance 0. -/
theorem c3_transient_distinctness_witness :
    Example02.Obj.serviceObj 1 (Example02.Obj.apiClient 0 "k" 5)
      ≠ Example02.Obj.serviceObj 2 (Example02.Obj.apiClient 0 "k" 5) ∧
    ∃ n c,
      Example02.Obj.serviceObj 1 (Example02.Obj.apiClient 0 "k" 5)
        = Example02.Obj.serviceObj n c ∧
      Example02.Obj.serviceObj 2 (Example02.Obj.apiClient 0 "k" 5)
        = Example02.Obj.serviceObj (n + 1) c :=
  c3_transient_distinctness (Example02.initialState "k" 5)
    (Example02.Obj.serviceObj 1 (Example02.Obj.apiClient 0 "k" 5))
    (Example02.Obj.serviceObj 2 (Example02.Obj.apiClient 0 "k" 5))
    rfl (by decide) (by decide)
